import Mathlib

/-!
Shallow embedding of `src/actions/axis.c` from sc-controller: the axis action
family (keywords `axis`, `raxis`, `hatup`, `hatdown`, `hatleft`, `hatright`),
its constructor, per-axis clamping, and the runtime value transforms.

Modelling choices:
- machine integers (`AxisValue`, axis codes, parameters) are `ℤ`;
- C `double`/`float` arithmetic is modelled as exact rationals `ℚ`, and the
  `(AxisValue)p` double-to-integer cast as truncation toward zero (`truncQ`);
- a write to the external Mapper sink `m->set_axis(m, axis, v)` is modelled as
  the pair `(axis, v)` returned by the transform;
- constants and the external parameter checker live in headers that are not
  part of the excerpt; they are modelled from the spec (marked in doc
  comments).
-/

namespace Scc

/-- Modelled from the spec: generic stick/pad domain minimum (`STICK_PAD_MIN`
from `scc/controller.h`, not in the excerpt; spec gives -32768..32767). -/
def STICK_PAD_MIN : ℤ := -32768

/-- Modelled from the spec: generic stick/pad domain maximum (`STICK_PAD_MAX`). -/
def STICK_PAD_MAX : ℤ := 32767

/-- Modelled from the spec: trigger domain minimum (`TRIGGER_MIN`, asymmetric
trigger range 0..max). -/
def TRIGGER_MIN : ℤ := 0

/-- Modelled from the spec: trigger domain maximum (`TRIGGER_MAX`, 255 for the
8-bit trigger domain). -/
def TRIGGER_MAX : ℤ := 255

/-- Modelled from the spec: axis identifier code for the first trigger axis
(`ABS_Z`, Linux input code 2). -/
def ABS_Z : ℤ := 2

/-- Modelled from the spec: axis identifier code for the second trigger axis
(`ABS_RZ`, Linux input code 5). -/
def ABS_RZ : ℤ := 5

/-- Modelled from the spec: axis identifier code for the horizontal hat axis
(`ABS_HAT0X`, Linux input code 16). -/
def ABS_HAT0X : ℤ := 16

/-- Modelled from the spec: axis identifier code for the vertical hat axis
(`ABS_HAT0Y`, Linux input code 17). -/
def ABS_HAT0Y : ℤ := 17

/-- The six surface keywords registered for `axis_constructor`
(`KW_AXIS` .. `KW_HATRIGHT` in axis.c). Dispatch only ever passes one of
these six strings, so they are embedded as a closed inductive type. -/
inductive Keyword where
  | axis
  | raxis
  | hatup
  | hatdown
  | hatleft
  | hatright
deriving DecidableEq

/-- Embeds the C test `strstr(keyword, "hat") == keyword` (keyword starts with
"hat"), evaluated on the six possible keyword strings. -/
def kwIsHat : Keyword → Bool
  | .hatup | .hatdown | .hatleft | .hatright => true
  | _ => false

/-- Embeds the C test
`(strstr(keyword, "down") != NULL) || (strstr(keyword, "right") != NULL)`
(keyword contains "down" or "right"), evaluated on the six keyword strings. -/
def kwIsDownOrRight : Keyword → Bool
  | .hatdown | .hatright => true
  | _ => false

/-- The `AxisAction` record of axis.c (the binding): keyword, retained
parameter list, target axis, scale, and calibrated output bounds. -/
structure AxisAction where
  keyword : Keyword
  params : List ℤ
  axis : ℤ
  scale : ℚ
  min : ℤ
  max : ℤ
deriving DecidableEq

/-- Checks that a value fits the checker's `i16` parameter type
(16-bit signed integer). -/
def i16_ok (v : ℤ) : Bool := decide (-32768 ≤ v) && decide (v ≤ 32767)

/-- Modelled from the spec: the external parameter checker
(`scc_param_checker_check`) applied to the signature string `"xi16?i16?"`
registered in `scc_actions_init_axis` — one required axis-id parameter
followed by up to two optional 16-bit signed integers. The axis-id type check
performed by `x` is not modelled (no claim depends on which integers are
legal axis ids); the count and `i16` range checks are. -/
def param_checker_check : List ℤ → Bool
  | [] => false
  | [_] => true
  | [_, b] => i16_ok b
  | [_, b, c] => i16_ok b && i16_ok c
  | _ :: _ :: _ :: _ :: _ => false

/-- Embeds `apply_axis_params` (axis.c lines 55-92): reads the axis id from
parameter 0, sets `scale = 1`, then fills `min`/`max`. For hat keywords the
defaults are `0` and `STICK_PAD_MIN + 1` (or `STICK_PAD_MAX - 1` for
down/right) and exactly one parameter is required (`none` models returning
`false`). Otherwise defaults come from the stick range, or the trigger range
for `ABS_Z`/`ABS_RZ`, optionally overridden by parameters 1 and 2, and
`raxis` swaps `min` with `max`. -/
def apply_axis_params (kw : Keyword) (params : List ℤ) : Option AxisAction :=
  let a := params.getD 0 0
  if kwIsHat kw then
    if params.length = 1 then
      some { keyword := kw, params := params, axis := a, scale := 1,
             min := 0,
             max := if kwIsDownOrRight kw then STICK_PAD_MAX - 1
                    else STICK_PAD_MIN + 1 }
    else
      none
  else
    let mn := if params.length > 1 then params.getD 1 0
              else if a = ABS_Z ∨ a = ABS_RZ then TRIGGER_MIN else STICK_PAD_MIN
    let mx := if params.length > 2 then params.getD 2 0
              else if a = ABS_Z ∨ a = ABS_RZ then TRIGGER_MAX else STICK_PAD_MAX
    if kw = Keyword.raxis then
      some { keyword := Keyword.raxis, params := params, axis := a, scale := 1,
             min := mx, max := mn }
    else
      some { keyword := Keyword.axis, params := params, axis := a, scale := 1,
             min := mn, max := mx }

/-- Construction errors of the excerpt: the parameter checker's structured
error (surfaced verbatim) and `invalid_number_of_parameters(keyword)`.
Out-of-memory is not modelled (allocation is outside the embedding). -/
inductive ConstructionError where
  | paramCheckerError
  | invalidNumberOfParameters (kw : Keyword)
deriving DecidableEq

/-- Embeds `axis_constructor` (axis.c lines 162-185): run the parameter
checker first and surface its error; then apply `apply_axis_params`, turning
its failure into `invalid_number_of_parameters(keyword)`. -/
def axis_constructor (kw : Keyword) (params : List ℤ) :
    Except ConstructionError AxisAction :=
  if param_checker_check params then
    match apply_axis_params kw params with
    | some ax => Except.ok ax
    | none => Except.error (ConstructionError.invalidNumberOfParameters kw)
  else
    Except.error ConstructionError.paramCheckerError

/-- Embeds `clamp_axis` (axis.c lines 95-109): clamp a value to the range
legal for the axis — trigger range for `ABS_Z`/`ABS_RZ`, `[-1, 1]` for the
two hat axes, the generic stick range otherwise. -/
def clamp_axis (a : ℤ) (value : ℤ) : ℤ :=
  if a = ABS_Z ∨ a = ABS_RZ then max TRIGGER_MIN (min TRIGGER_MAX value)
  else if a = ABS_HAT0X ∨ a = ABS_HAT0Y then max (-1) (min 1 value)
  else max STICK_PAD_MIN (min STICK_PAD_MAX value)

/-- The Range Table's lower bound for an axis (spec section 4.1); the branch
structure matches `clamp_axis`. -/
def range_min (a : ℤ) : ℤ :=
  if a = ABS_Z ∨ a = ABS_RZ then TRIGGER_MIN
  else if a = ABS_HAT0X ∨ a = ABS_HAT0Y then -1
  else STICK_PAD_MIN

/-- The Range Table's upper bound for an axis (spec section 4.1). -/
def range_max (a : ℤ) : ℤ :=
  if a = ABS_Z ∨ a = ABS_RZ then TRIGGER_MAX
  else if a = ABS_HAT0X ∨ a = ABS_HAT0Y then 1
  else STICK_PAD_MAX

/-- Embeds `button_press` (axis.c lines 111-115): write
`clamp_axis(axis, max)` to the sink for the binding's axis. The returned
pair is (target axis, written value). -/
def button_press (ax : AxisAction) : ℤ × ℤ :=
  (ax.axis, clamp_axis ax.axis ax.max)

/-- Embeds `button_release` (axis.c lines 117-121): write
`clamp_axis(axis, min)` to the sink for the binding's axis. -/
def button_release (ax : AxisAction) : ℤ × ℤ :=
  (ax.axis, clamp_axis ax.axis ax.min)

/-- Truncation toward zero on `ℚ`, modelling the C `(AxisValue)p` cast from
`double`. -/
def truncQ (q : ℚ) : ℤ := if 0 ≤ q then ⌊q⌋ else ⌈q⌉

/-- Embeds the continuous-axis transform `axis` (axis.c lines 123-131):
normalize `value * scale` over the stick domain, remap linearly into
`[min, max]`, truncate, clamp, and write for the binding's axis. -/
def axis (ax : AxisAction) (value : ℤ) : ℤ × ℤ :=
  (ax.axis, clamp_axis ax.axis (truncQ
    (((value : ℚ) * ax.scale - (STICK_PAD_MIN : ℚ)) /
        ((STICK_PAD_MAX : ℚ) - (STICK_PAD_MIN : ℚ)) *
        ((ax.max : ℚ) - (ax.min : ℚ)) + (ax.min : ℚ))))

/-- Embeds the trigger transform `trigger` (axis.c lines 133-141): same remap
as `axis` but normalized over the trigger domain; `old_pos` is a parameter of
the C function that its body never reads. -/
def trigger (ax : AxisAction) (old_pos pos : ℤ) : ℤ × ℤ :=
  (ax.axis, clamp_axis ax.axis (truncQ
    (((pos : ℚ) * ax.scale - (TRIGGER_MIN : ℚ)) /
        ((TRIGGER_MAX : ℚ) - (TRIGGER_MIN : ℚ)) *
        ((ax.max : ℚ) - (ax.min : ℚ)) + (ax.min : ℚ))))

/-- Embeds `set_sensitivity` (axis.c lines 143-146): overwrite `scale` with
`x`; `y` and `z` are accepted and ignored. -/
def set_sensitivity (ax : AxisAction) (x y z : ℚ) : AxisAction :=
  { ax with scale := x }

/-! Helper lemmas shared by the claim theorems. -/

theorem clamp_axis_eq (a v : ℤ) :
    clamp_axis a v = max (range_min a) (min (range_max a) v) := by
  unfold clamp_axis range_min range_max
  by_cases h1 : a = ABS_Z ∨ a = ABS_RZ
  · simp [h1]
  · by_cases h2 : a = ABS_HAT0X ∨ a = ABS_HAT0Y <;> simp [h1, h2]

theorem range_min_le_range_max (a : ℤ) : range_min a ≤ range_max a := by
  unfold range_min range_max
  by_cases h1 : a = ABS_Z ∨ a = ABS_RZ
  · simp only [h1, if_true]
    unfold TRIGGER_MIN TRIGGER_MAX
    decide
  · by_cases h2 : a = ABS_HAT0X ∨ a = ABS_HAT0Y
    · simp only [h1, h2, if_false, if_true]
      decide
    · simp only [h1, h2, if_false]
      unfold STICK_PAD_MIN STICK_PAD_MAX
      decide

theorem clamp_axis_within (a v : ℤ) :
    range_min a ≤ clamp_axis a v ∧ clamp_axis a v ≤ range_max a := by
  rw [clamp_axis_eq]
  refine ⟨le_max_left _ _, max_le (range_min_le_range_max a) (min_le_left _ _)⟩

theorem clamp_axis_mono (a : ℤ) {v w : ℤ} (h : v ≤ w) :
    clamp_axis a v ≤ clamp_axis a w := by
  rw [clamp_axis_eq, clamp_axis_eq]
  exact max_le_max le_rfl (min_le_min le_rfl h)

theorem truncQ_mono {q r : ℚ} (h : q ≤ r) : truncQ q ≤ truncQ r := by
  unfold truncQ
  by_cases hq : 0 ≤ q
  · have hr : 0 ≤ r := le_trans hq h
    simp only [hq, hr, if_true]
    exact Int.floor_le_floor h
  · by_cases hr : 0 ≤ r
    · simp only [hq, hr, if_true, if_false]
      calc ⌈q⌉ ≤ 0 := by rw [Int.ceil_le]; exact_mod_cast le_of_lt (lt_of_not_le hq)
        _ ≤ ⌊r⌋ := by rw [Int.le_floor]; exact_mod_cast hr
    · simp only [hq, hr, if_false]
      exact Int.ceil_le_ceil h

theorem axis_constructor_ok_iff (kw : Keyword) (params : List ℤ)
    (ax : AxisAction) :
    axis_constructor kw params = Except.ok ax ↔
      param_checker_check params = true ∧
        apply_axis_params kw params = some ax := by
  unfold axis_constructor
  by_cases hc : param_checker_check params = true
  · simp only [hc, if_true]
    cases happ : apply_axis_params kw params with
    | none => simp [happ]
    | some b => simp [happ]
  · simp [hc]

theorem constructed_scale (kw : Keyword) (params : List ℤ) (ax : AxisAction)
    (h : axis_constructor kw params = Except.ok ax) : ax.scale = 1 := by
  obtain ⟨-, happ⟩ := (axis_constructor_ok_iff kw params ax).mp h
  unfold apply_axis_params at happ
  by_cases hh : kwIsHat kw = true
  · simp only [hh, if_true] at happ
    by_cases hl : params.length = 1
    · simp only [hl, if_true] at happ
      cases happ
      rfl
    · simp [hl] at happ
  · simp only [hh] at happ
    by_cases hr : kw = Keyword.raxis
    · simp only [hr, if_true] at happ
      cases happ
      rfl
    · simp only [hr, if_false] at happ
      cases happ
      rfl

theorem apply_axis_params_axis (params : List ℤ) :
    apply_axis_params Keyword.axis params =
      some ⟨Keyword.axis, params, params.getD 0 0, 1,
        if params.length > 1 then params.getD 1 0
        else if params.getD 0 0 = ABS_Z ∨ params.getD 0 0 = ABS_RZ then
          TRIGGER_MIN
        else STICK_PAD_MIN,
        if params.length > 2 then params.getD 2 0
        else if params.getD 0 0 = ABS_Z ∨ params.getD 0 0 = ABS_RZ then
          TRIGGER_MAX
        else STICK_PAD_MAX⟩ := rfl

theorem apply_axis_params_raxis (params : List ℤ) :
    apply_axis_params Keyword.raxis params =
      some ⟨Keyword.raxis, params, params.getD 0 0, 1,
        if params.length > 2 then params.getD 2 0
        else if params.getD 0 0 = ABS_Z ∨ params.getD 0 0 = ABS_RZ then
          TRIGGER_MAX
        else STICK_PAD_MAX,
        if params.length > 1 then params.getD 1 0
        else if params.getD 0 0 = ABS_Z ∨ params.getD 0 0 = ABS_RZ then
          TRIGGER_MIN
        else STICK_PAD_MIN⟩ := rfl

theorem apply_axis_params_hat (kw : Keyword) (hk : kwIsHat kw = true)
    (params : List ℤ) :
    apply_axis_params kw params =
      if params.length = 1 then
        some ⟨kw, params, params.getD 0 0, 1, 0,
          if kwIsDownOrRight kw then STICK_PAD_MAX - 1 else STICK_PAD_MIN + 1⟩
      else none := by
  unfold apply_axis_params
  rw [hk]
  simp

theorem checker_i16_fst (params : List ℤ)
    (hc : param_checker_check params = true) (hl : params.length > 1) :
    i16_ok (params.getD 1 0) = true := by
  rcases params with - | ⟨a, - | ⟨b, - | ⟨c, - | ⟨d, rest⟩⟩⟩⟩
  · exact absurd hc (by decide)
  · simp at hl
  · exact hc
  · simp only [param_checker_check, Bool.and_eq_true] at hc
    exact hc.1
  · simp [param_checker_check] at hc

theorem checker_i16_snd (params : List ℤ)
    (hc : param_checker_check params = true) (hl : params.length > 2) :
    i16_ok (params.getD 2 0) = true := by
  rcases params with - | ⟨a, - | ⟨b, - | ⟨c, - | ⟨d, rest⟩⟩⟩⟩
  · exact absurd hc (by decide)
  · simp at hl
  · simp at hl
  · simp only [param_checker_check, Bool.and_eq_true] at hc
    exact hc.2
  · simp [param_checker_check] at hc

theorem kw_not_hat (kw : Keyword) (hk : ¬kwIsHat kw = true) :
    kw = Keyword.axis ∨ kw = Keyword.raxis := by
  cases kw
  · exact Or.inl rfl
  · exact Or.inr rfl
  all_goals exact absurd rfl hk

/-- C2, counterexample: constructing `hatup` with one axis parameter stores
`max = STICK_PAD_MIN + 1` (one unit above the negative stick extreme), not
`STICK_PAD_MAX - 1` as the claim states. -/
theorem C2_counterexample :
    axis_constructor Keyword.hatup [ABS_HAT0Y] =
      Except.ok ⟨Keyword.hatup, [ABS_HAT0Y], ABS_HAT0Y, 1, 0,
        STICK_PAD_MIN + 1⟩ ∧
    STICK_PAD_MIN + 1 ≠ STICK_PAD_MAX - 1 := by
  refine ⟨rfl, by decide⟩

/-- C2, amended: constructing any of the four hat keywords with one axis
parameter yields `scale = 1`, `min = 0`, and `max = STICK_PAD_MIN + 1` for
`hatup`/`hatleft` but `max = STICK_PAD_MAX - 1` for `hatdown`/`hatright`
(the directions are the reverse of the claim's). -/
theorem C2_hat_defaults (a : ℤ) :
    axis_constructor Keyword.hatup [a] =
      Except.ok ⟨Keyword.hatup, [a], a, 1, 0, STICK_PAD_MIN + 1⟩ ∧
    axis_constructor Keyword.hatleft [a] =
      Except.ok ⟨Keyword.hatleft, [a], a, 1, 0, STICK_PAD_MIN + 1⟩ ∧
    axis_constructor Keyword.hatdown [a] =
      Except.ok ⟨Keyword.hatdown, [a], a, 1, 0, STICK_PAD_MAX - 1⟩ ∧
    axis_constructor Keyword.hatright [a] =
      Except.ok ⟨Keyword.hatright, [a], a, 1, 0, STICK_PAD_MAX - 1⟩ :=
  ⟨rfl, rfl, rfl, rfl⟩

/-- C5, counterexample: for the binding constructed by `hatup(ABS_HAT0X)`, a
button press writes `-1` (the clamped value), not the binding's `max`
(`-32767`), so a press does not write exactly `max` to the sink. -/
theorem C5_counterexample :
    axis_constructor Keyword.hatup [ABS_HAT0X] =
      Except.ok ⟨Keyword.hatup, [ABS_HAT0X], ABS_HAT0X, 1, 0,
        STICK_PAD_MIN + 1⟩ ∧
    (button_press ⟨Keyword.hatup, [ABS_HAT0X], ABS_HAT0X, 1, 0,
        STICK_PAD_MIN + 1⟩).2 ≠ (STICK_PAD_MIN + 1 : ℤ) :=
  ⟨rfl, by decide⟩

/-- C5, amended: for every binding, a button press writes
`clamp_axis(axis, max)` to the sink for the binding's axis and a release
writes `clamp_axis(axis, min)`; both written values lie within the hardware
clamp bounds for that axis's kind (they equal `max`/`min` exactly only when
those already lie within the clamp bounds). -/
theorem C5_press_release_clamped (ax : AxisAction) :
    button_press ax = (ax.axis, clamp_axis ax.axis ax.max) ∧
    button_release ax = (ax.axis, clamp_axis ax.axis ax.min) ∧
    range_min ax.axis ≤ (button_press ax).2 ∧
    (button_press ax).2 ≤ range_max ax.axis ∧
    range_min ax.axis ≤ (button_release ax).2 ∧
    (button_release ax).2 ≤ range_max ax.axis :=
  ⟨rfl, rfl, (clamp_axis_within _ _).1, (clamp_axis_within _ _).2,
   (clamp_axis_within _ _).1, (clamp_axis_within _ _).2⟩

/-- C6: every value written by the four runtime entry points — press,
release, continuous-axis update, trigger update — lies within the Range
Table bounds for the binding's axis kind, for every binding (any `min`,
`max`, `scale`) and any inputs. -/
theorem C6_outputs_within_range (ax : AxisAction) (raw old_pos pos : ℤ) :
    (range_min ax.axis ≤ (button_press ax).2 ∧
      (button_press ax).2 ≤ range_max ax.axis) ∧
    (range_min ax.axis ≤ (button_release ax).2 ∧
      (button_release ax).2 ≤ range_max ax.axis) ∧
    (range_min ax.axis ≤ (axis ax raw).2 ∧
      (axis ax raw).2 ≤ range_max ax.axis) ∧
    (range_min ax.axis ≤ (trigger ax old_pos pos).2 ∧
      (trigger ax old_pos pos).2 ≤ range_max ax.axis) :=
  ⟨clamp_axis_within _ _, clamp_axis_within _ _, clamp_axis_within _ _,
   clamp_axis_within _ _⟩

/-- C8: the trigger transform's output never depends on the `old_pos`
argument — two calls differing only in `old_pos` write the same value (and
target the same axis). -/
theorem C8_trigger_ignores_old_pos (ax : AxisAction) (old1 old2 pos : ℤ) :
    trigger ax old1 pos = trigger ax old2 pos := rfl

/-- C9: `set_sensitivity(x, y, z)` sets `scale` to exactly `x`
unconditionally (any `x`, including zero and negative values), leaves the
keyword, stored parameter list, axis, `min` and `max` unchanged, and ignores
`y` and `z`. -/
theorem C9_set_sensitivity_only_scale (ax : AxisAction) (x y z y2 z2 : ℚ) :
    (set_sensitivity ax x y z).scale = x ∧
    (set_sensitivity ax x y z).keyword = ax.keyword ∧
    (set_sensitivity ax x y z).params = ax.params ∧
    (set_sensitivity ax x y z).axis = ax.axis ∧
    (set_sensitivity ax x y z).min = ax.min ∧
    (set_sensitivity ax x y z).max = ax.max ∧
    set_sensitivity ax x y z = set_sensitivity ax x y2 z2 :=
  ⟨rfl, rfl, rfl, rfl, rfl, rfl, rfl⟩

/-- C10, counterexample: the stored `max` of a `hatdown` binding is `32766`
(`STICK_PAD_MAX - 1`), not `+32767` and not `-32767`, refuting the claim's
"stored near-extreme magnitudes ±32767". -/
theorem C10_counterexample :
    axis_constructor Keyword.hatdown [ABS_HAT0Y] =
      Except.ok ⟨Keyword.hatdown, [ABS_HAT0Y], ABS_HAT0Y, 1, 0,
        STICK_PAD_MAX - 1⟩ ∧
    (STICK_PAD_MAX - 1 : ℤ) = 32766 ∧ (STICK_PAD_MAX - 1 : ℤ) ≠ 32767 ∧
    (STICK_PAD_MAX - 1 : ℤ) ≠ -32767 :=
  ⟨rfl, by decide, by decide, by decide⟩

/-- C10, amended: for a hat binding targeting a hat axis, the stored `max` is
`-32767` for `hatup`/`hatleft` and `+32766` for `hatdown`/`hatright`; a
button press writes `-1` for `hatup`/`hatleft` and `+1` for
`hatdown`/`hatright` (the near-extreme stored values are clamped to the hat
range), a release writes `0`, and every continuous-axis or trigger output on
such a binding also lies in `[-1, 1]`. -/
theorem C10_hat_outputs (kw : Keyword) (hk : kwIsHat kw = true) (a : ℤ)
    (ha : a = ABS_HAT0X ∨ a = ABS_HAT0Y) (ax : AxisAction)
    (h : axis_constructor kw [a] = Except.ok ax) :
    ax.max = (if kwIsDownOrRight kw then STICK_PAD_MAX - 1
              else STICK_PAD_MIN + 1) ∧
    ax.min = 0 ∧
    (button_press ax).2 = (if kwIsDownOrRight kw then 1 else -1) ∧
    (button_release ax).2 = 0 ∧
    (∀ raw : ℤ, -1 ≤ (axis ax raw).2 ∧ (axis ax raw).2 ≤ 1) ∧
    (∀ old_pos pos : ℤ, -1 ≤ (trigger ax old_pos pos).2 ∧
      (trigger ax old_pos pos).2 ≤ 1) := by
  obtain ⟨-, happ⟩ := (axis_constructor_ok_iff kw [a] ax).mp h
  have hax : ax = ⟨kw, [a], a, 1, 0,
      if kwIsDownOrRight kw then STICK_PAD_MAX - 1 else STICK_PAD_MIN + 1⟩ := by
    unfold apply_axis_params at happ
    simp only [hk, if_true, List.length_singleton, if_pos rfl] at happ
    cases happ
    rfl
  subst hax
  have hrange : ∀ v : ℤ, -1 ≤ clamp_axis a v ∧ clamp_axis a v ≤ 1 := by
    intro v
    have h1 := clamp_axis_within a v
    have hmin : range_min a = -1 := by
      rcases ha with rfl | rfl <;> rfl
    have hmax : range_max a = 1 := by
      rcases ha with rfl | rfl <;> rfl
    rw [hmin, hmax] at h1
    exact h1
  refine ⟨rfl, rfl, ?_, ?_, fun raw => hrange _, fun old_pos pos => hrange _⟩
  · by_cases hd : kwIsDownOrRight kw = true
    · simp only [hd, if_true, button_press]
      rcases ha with rfl | rfl <;> decide
    · simp only [Bool.not_eq_true] at hd
      simp only [hd, Bool.false_eq_true, if_false, button_press]
      rcases ha with rfl | rfl <;> decide
  · rcases ha with rfl | rfl <;> rfl

/-- C10, witness: the amended statement instantiated at `hatup(ABS_HAT0X)`. -/
theorem C10_witness :
    (⟨Keyword.hatup, [ABS_HAT0X], ABS_HAT0X, 1, 0, STICK_PAD_MIN + 1⟩ :
        AxisAction).max =
      (if kwIsDownOrRight Keyword.hatup then STICK_PAD_MAX - 1
       else STICK_PAD_MIN + 1) ∧
    (⟨Keyword.hatup, [ABS_HAT0X], ABS_HAT0X, 1, 0, STICK_PAD_MIN + 1⟩ :
        AxisAction).min = 0 ∧
    (button_press ⟨Keyword.hatup, [ABS_HAT0X], ABS_HAT0X, 1, 0,
        STICK_PAD_MIN + 1⟩).2 =
      (if kwIsDownOrRight Keyword.hatup then 1 else -1) ∧
    (button_release ⟨Keyword.hatup, [ABS_HAT0X], ABS_HAT0X, 1, 0,
        STICK_PAD_MIN + 1⟩).2 = 0 ∧
    (∀ raw : ℤ,
      -1 ≤ (axis ⟨Keyword.hatup, [ABS_HAT0X], ABS_HAT0X, 1, 0,
          STICK_PAD_MIN + 1⟩ raw).2 ∧
      (axis ⟨Keyword.hatup, [ABS_HAT0X], ABS_HAT0X, 1, 0,
          STICK_PAD_MIN + 1⟩ raw).2 ≤ 1) ∧
    (∀ old_pos pos : ℤ,
      -1 ≤ (trigger ⟨Keyword.hatup, [ABS_HAT0X], ABS_HAT0X, 1, 0,
          STICK_PAD_MIN + 1⟩ old_pos pos).2 ∧
      (trigger ⟨Keyword.hatup, [ABS_HAT0X], ABS_HAT0X, 1, 0,
          STICK_PAD_MIN + 1⟩ old_pos pos).2 ≤ 1) :=
  C10_hat_outputs Keyword.hatup rfl ABS_HAT0X (Or.inl rfl)
    ⟨Keyword.hatup, [ABS_HAT0X], ABS_HAT0X, 1, 0, STICK_PAD_MIN + 1⟩ rfl

/-- C1, counterexample: `hatup(ABS_HAT0X)` is accepted by construction, yet
its stored `max = STICK_PAD_MIN + 1 = -32767` lies outside the Range Table's
hat bounds `[-1, 1]` for its axis — min/max are not confined to the axis
kind's legal bounds at construction. -/
theorem C1_counterexample :
    axis_constructor Keyword.hatup [ABS_HAT0X] =
      Except.ok ⟨Keyword.hatup, [ABS_HAT0X], ABS_HAT0X, 1, 0,
        STICK_PAD_MIN + 1⟩ ∧
    range_min ABS_HAT0X = -1 ∧ range_max ABS_HAT0X = 1 ∧
    ¬(range_min ABS_HAT0X ≤ (STICK_PAD_MIN + 1 : ℤ) ∧
      (STICK_PAD_MIN + 1 : ℤ) ≤ range_max ABS_HAT0X) :=
  ⟨rfl, rfl, rfl, by decide⟩

/-- C1, amended: every successfully constructed binding has `min` and `max`
within the generic stick range `[STICK_PAD_MIN, STICK_PAD_MAX]`; the
kind-specific trigger and hat bounds are not enforced at construction but
only by clamping at write time. -/
theorem C1_min_max_in_stick_range (kw : Keyword) (params : List ℤ)
    (ax : AxisAction) (h : axis_constructor kw params = Except.ok ax) :
    STICK_PAD_MIN ≤ ax.min ∧ ax.min ≤ STICK_PAD_MAX ∧
    STICK_PAD_MIN ≤ ax.max ∧ ax.max ≤ STICK_PAD_MAX := by
  obtain ⟨hc, happ⟩ := (axis_constructor_ok_iff kw params ax).mp h
  by_cases hk : kwIsHat kw = true
  · rw [apply_axis_params_hat kw hk] at happ
    by_cases hl : params.length = 1
    · rw [if_pos hl] at happ
      cases happ
      by_cases hd : kwIsDownOrRight kw = true
      · simp only [hd, if_true]
        exact ⟨by decide, by decide, by decide, by decide⟩
      · simp only [Bool.not_eq_true] at hd
        simp only [hd, Bool.false_eq_true, if_false]
        exact ⟨by decide, by decide, by decide, by decide⟩
    · rw [if_neg hl] at happ
      exact Option.noConfusion happ
  · have hb1 : STICK_PAD_MIN ≤ (if params.length > 1 then params.getD 1 0
        else if params.getD 0 0 = ABS_Z ∨ params.getD 0 0 = ABS_RZ then
          TRIGGER_MIN
        else STICK_PAD_MIN) ∧
        (if params.length > 1 then params.getD 1 0
        else if params.getD 0 0 = ABS_Z ∨ params.getD 0 0 = ABS_RZ then
          TRIGGER_MIN
        else STICK_PAD_MIN) ≤ STICK_PAD_MAX := by
      by_cases h1 : params.length > 1
      · have hi := checker_i16_fst params hc h1
        simp only [i16_ok, Bool.and_eq_true, decide_eq_true_eq] at hi
        rw [if_pos h1]
        exact ⟨hi.1, hi.2⟩
      · rw [if_neg h1]
        by_cases ht : params.getD 0 0 = ABS_Z ∨ params.getD 0 0 = ABS_RZ
        · rw [if_pos ht]
          exact ⟨by decide, by decide⟩
        · rw [if_neg ht]
          exact ⟨by decide, by decide⟩
    have hb2 : STICK_PAD_MIN ≤ (if params.length > 2 then params.getD 2 0
        else if params.getD 0 0 = ABS_Z ∨ params.getD 0 0 = ABS_RZ then
          TRIGGER_MAX
        else STICK_PAD_MAX) ∧
        (if params.length > 2 then params.getD 2 0
        else if params.getD 0 0 = ABS_Z ∨ params.getD 0 0 = ABS_RZ then
          TRIGGER_MAX
        else STICK_PAD_MAX) ≤ STICK_PAD_MAX := by
      by_cases h2 : params.length > 2
      · have hi := checker_i16_snd params hc h2
        simp only [i16_ok, Bool.and_eq_true, decide_eq_true_eq] at hi
        rw [if_pos h2]
        exact ⟨hi.1, hi.2⟩
      · rw [if_neg h2]
        by_cases ht : params.getD 0 0 = ABS_Z ∨ params.getD 0 0 = ABS_RZ
        · rw [if_pos ht]
          exact ⟨by decide, by decide⟩
        · rw [if_neg ht]
          exact ⟨by decide, by decide⟩
    rcases kw_not_hat kw hk with rfl | rfl
    · rw [apply_axis_params_axis] at happ
      cases happ
      exact ⟨hb1.1, hb1.2, hb2.1, hb2.2⟩
    · rw [apply_axis_params_raxis] at happ
      cases happ
      exact ⟨hb2.1, hb2.2, hb1.1, hb1.2⟩

/-- C1, witness: the amended statement instantiated at `axis(0)` (a stick
axis with no overrides). -/
theorem C1_witness :
    STICK_PAD_MIN ≤ (⟨Keyword.axis, [0], 0, 1, STICK_PAD_MIN,
        STICK_PAD_MAX⟩ : AxisAction).min ∧
    (⟨Keyword.axis, [0], 0, 1, STICK_PAD_MIN, STICK_PAD_MAX⟩ :
        AxisAction).min ≤ STICK_PAD_MAX ∧
    STICK_PAD_MIN ≤ (⟨Keyword.axis, [0], 0, 1, STICK_PAD_MIN,
        STICK_PAD_MAX⟩ : AxisAction).max ∧
    (⟨Keyword.axis, [0], 0, 1, STICK_PAD_MIN, STICK_PAD_MAX⟩ :
        AxisAction).max ≤ STICK_PAD_MAX :=
  C1_min_max_in_stick_range Keyword.axis [0]
    ⟨Keyword.axis, [0], 0, 1, STICK_PAD_MIN, STICK_PAD_MAX⟩ rfl

/-- C3: for every parameter list accepted by the checker, `raxis` yields a
binding whose `min` equals the `max` that `axis` would yield on the same
parameters and whose `max` equals that `min` — the same default-and-override
computation with the two bounds swapped. -/
theorem C3_raxis_swaps (params : List ℤ) (axb rxb : AxisAction)
    (h1 : axis_constructor Keyword.axis params = Except.ok axb)
    (h2 : axis_constructor Keyword.raxis params = Except.ok rxb) :
    rxb.min = axb.max ∧ rxb.max = axb.min := by
  obtain ⟨-, ha⟩ := (axis_constructor_ok_iff _ _ _).mp h1
  obtain ⟨-, hb⟩ := (axis_constructor_ok_iff _ _ _).mp h2
  rw [apply_axis_params_axis] at ha
  rw [apply_axis_params_raxis] at hb
  cases ha
  cases hb
  exact ⟨rfl, rfl⟩

/-- C3, witness: instantiated at `axis(0, 5, 7)` and `raxis(0, 5, 7)`. -/
theorem C3_witness :
    (⟨Keyword.raxis, [0, 5, 7], 0, 1, 7, 5⟩ : AxisAction).min =
      (⟨Keyword.axis, [0, 5, 7], 0, 1, 5, 7⟩ : AxisAction).max ∧
    (⟨Keyword.raxis, [0, 5, 7], 0, 1, 7, 5⟩ : AxisAction).max =
      (⟨Keyword.axis, [0, 5, 7], 0, 1, 5, 7⟩ : AxisAction).min :=
  C3_raxis_swaps [0, 5, 7] ⟨Keyword.axis, [0, 5, 7], 0, 1, 5, 7⟩
    ⟨Keyword.raxis, [0, 5, 7], 0, 1, 7, 5⟩ rfl rfl

/-- C4, counterexample: constructing `hatup` with 0 parameters fails at the
parameter checker (the axis-id parameter is required by the signature
`"xi16?i16?"`), so the error is the checker's, not the
invalid-number-of-parameters error the claim names. -/
theorem C4_counterexample :
    axis_constructor Keyword.hatup [] =
      Except.error ConstructionError.paramCheckerError ∧
    ConstructionError.paramCheckerError ≠
      ConstructionError.invalidNumberOfParameters Keyword.hatup :=
  ⟨rfl, by decide⟩

/-- C4, amended: for every hat keyword, 0 parameters fail with the parameter
checker's error, 2 well-typed parameters fail with the
invalid-number-of-parameters error naming the keyword, exactly 1 parameter
succeeds, and `axis` with 4 parameters fails at the checker stage. -/
theorem C4_hat_arity (kw : Keyword) (hk : kwIsHat kw = true) (p q : ℤ)
    (hq : i16_ok q = true) :
    axis_constructor kw [] =
      Except.error ConstructionError.paramCheckerError ∧
    axis_constructor kw [p, q] =
      Except.error (ConstructionError.invalidNumberOfParameters kw) ∧
    axis_constructor kw [p] =
      Except.ok ⟨kw, [p], p, 1, 0,
        if kwIsDownOrRight kw then STICK_PAD_MAX - 1
        else STICK_PAD_MIN + 1⟩ ∧
    axis_constructor Keyword.axis [p, q, p, q] =
      Except.error ConstructionError.paramCheckerError := by
  refine ⟨rfl, ?_, ?_, rfl⟩
  · unfold axis_constructor
    have hcheck : param_checker_check [p, q] = true := hq
    rw [hcheck, apply_axis_params_hat kw hk]
    simp
  · unfold axis_constructor
    have hcheck : param_checker_check [p] = true := rfl
    rw [hcheck, apply_axis_params_hat kw hk]
    simp

/-- C4, witness: the amended statement instantiated at `hatup` with
parameter lists `[]`, `[16, 0]`, `[16]`, and `axis` with `[16, 0, 16, 0]`. -/
theorem C4_witness :
    axis_constructor Keyword.hatup [] =
      Except.error ConstructionError.paramCheckerError ∧
    axis_constructor Keyword.hatup [ABS_HAT0X, 0] =
      Except.error
        (ConstructionError.invalidNumberOfParameters Keyword.hatup) ∧
    axis_constructor Keyword.hatup [ABS_HAT0X] =
      Except.ok ⟨Keyword.hatup, [ABS_HAT0X], ABS_HAT0X, 1, 0,
        if kwIsDownOrRight Keyword.hatup then STICK_PAD_MAX - 1
        else STICK_PAD_MIN + 1⟩ ∧
    axis_constructor Keyword.axis [ABS_HAT0X, 0, ABS_HAT0X, 0] =
      Except.error ConstructionError.paramCheckerError :=
  C4_hat_arity Keyword.hatup rfl ABS_HAT0X 0 rfl

/-- C7: for every constructed binding (whose `scale` is 1 from construction),
the continuous-axis transform is monotonic in the raw input: for
`raw1 < raw2` the output for `raw1` is at most the output for `raw2` when
`min < max`, and the outputs are reversed when `min > max`. -/
theorem C7_axis_monotone (kw : Keyword) (params : List ℤ) (ax : AxisAction)
    (h : axis_constructor kw params = Except.ok ax) (raw1 raw2 : ℤ)
    (hlt : raw1 < raw2) :
    (ax.min < ax.max → (axis ax raw1).2 ≤ (axis ax raw2).2) ∧
    (ax.max < ax.min → (axis ax raw2).2 ≤ (axis ax raw1).2) := by
  have hs : ax.scale = 1 := constructed_scale kw params ax h
  have hq : ((raw1 : ℚ)) ≤ (raw2 : ℚ) := by exact_mod_cast hlt.le
  have hD : (0 : ℚ) < (STICK_PAD_MAX : ℚ) - (STICK_PAD_MIN : ℚ) := by
    norm_num [STICK_PAD_MAX, STICK_PAD_MIN]
  have hbase : ((raw1 : ℚ) * ax.scale - (STICK_PAD_MIN : ℚ)) /
        ((STICK_PAD_MAX : ℚ) - (STICK_PAD_MIN : ℚ)) ≤
      ((raw2 : ℚ) * ax.scale - (STICK_PAD_MIN : ℚ)) /
        ((STICK_PAD_MAX : ℚ) - (STICK_PAD_MIN : ℚ)) := by
    rw [hs]
    exact (div_le_div_iff_of_pos_right hD).mpr (by linarith)
  constructor
  · intro hmm
    have hMm : (0 : ℚ) ≤ (ax.max : ℚ) - (ax.min : ℚ) := by
      have hc : (ax.min : ℚ) ≤ (ax.max : ℚ) := by exact_mod_cast hmm.le
      linarith
    simp only [axis]
    apply clamp_axis_mono
    apply truncQ_mono
    have hmul := mul_le_mul_of_nonneg_right hbase hMm
    linarith
  · intro hmm
    have hMm : (ax.max : ℚ) - (ax.min : ℚ) ≤ 0 := by
      have hc : (ax.max : ℚ) ≤ (ax.min : ℚ) := by exact_mod_cast hmm.le
      linarith
    simp only [axis]
    apply clamp_axis_mono
    apply truncQ_mono
    have hmul := mul_le_mul_of_nonpos_right hbase hMm
    linarith

/-- C7, witness: instantiated at the binding constructed by `axis(0)` and the
raw inputs `0 < 1`. -/
theorem C7_witness :
    ((⟨Keyword.axis, [0], 0, 1, STICK_PAD_MIN, STICK_PAD_MAX⟩ :
        AxisAction).min <
      (⟨Keyword.axis, [0], 0, 1, STICK_PAD_MIN, STICK_PAD_MAX⟩ :
        AxisAction).max →
      (axis ⟨Keyword.axis, [0], 0, 1, STICK_PAD_MIN, STICK_PAD_MAX⟩ 0).2 ≤
        (axis ⟨Keyword.axis, [0], 0, 1, STICK_PAD_MIN, STICK_PAD_MAX⟩ 1).2) ∧
    ((⟨Keyword.axis, [0], 0, 1, STICK_PAD_MIN, STICK_PAD_MAX⟩ :
        AxisAction).max <
      (⟨Keyword.axis, [0], 0, 1, STICK_PAD_MIN, STICK_PAD_MAX⟩ :
        AxisAction).min →
      (axis ⟨Keyword.axis, [0], 0, 1, STICK_PAD_MIN, STICK_PAD_MAX⟩ 1).2 ≤
        (axis ⟨Keyword.axis, [0], 0, 1, STICK_PAD_MIN, STICK_PAD_MAX⟩ 0).2) :=
  C7_axis_monotone Keyword.axis [0]
    ⟨Keyword.axis, [0], 0, 1, STICK_PAD_MIN, STICK_PAD_MAX⟩ rfl 0 1
    (by decide)

end Scc
